import Mathlib

/-!
# Verification of the churn-detection engines

Shallow embedding of the core logic of `product_level_churn.py`
(`ProductLevelChurnEngine`) and `competitor_intelligence.py`
(`CompetitorIntelligenceEngine`), together with theorems settling the
specification claims about them.

Modelling conventions:
* Python floats are modelled as exact rationals (`ℚ`); values produced by
  `math.sqrt` / `statistics.stdev` live in `ℝ` via `Real.sqrt`.
* `datetime` values are modelled as integer day ordinals (`ℤ`); a subtraction
  of two datetimes followed by `.days` is the integer difference, and
  `/ 7` is exact rational division, matching Python's float division on
  whole-day differences.
* Raw JSON-ish input records are association lists of `PyVal` (a fragment of
  Python's value universe: `None`, numbers, strings, booleans), with Python's
  truthiness and `dict.get` semantics made explicit.
* Fallible Python code (uncaught `ValueError`/`TypeError`/`IndexError`) is
  modelled with `Except Unit`.
-/

namespace Churn

/-- Trend states produced by `ProductLevelChurnEngine.detect_trend`. -/
inductive Trend
| stable
| growing
| declining
| stopped
deriving DecidableEq, Repr

/-- Severity tiers assigned in `ProductLevelChurnEngine.analyze`. -/
inductive Severity
| critical
| warning
| watch
deriving DecidableEq, Repr

/-- The configurable thresholds of `ProductLevelChurnEngine.__init__`
(`stopped_weeks`, `decline_pct`, `critical_decline_pct`). -/
structure Thresholds where
  stopped_weeks : ℚ
  decline_pct : ℚ
  critical_decline_pct : ℚ

/-- The default thresholds: 4 weeks, 40%, 70%. -/
def defaultThresholds : Thresholds :=
  { stopped_weeks := 4, decline_pct := 40, critical_decline_pct := 70 }

/-- The rate-based part of `detect_trend` (everything after the inactivity
check): the `baseline_qty == 0` special case, then the `change_pct`
threshold chain. -/
def rate_trend (baseline_qty current_qty : ℚ) (th : Thresholds) : Trend :=
  if baseline_qty = 0 then
    (if current_qty = 0 then Trend.stable else Trend.growing)
  else
    let change_pct := (current_qty - baseline_qty) / baseline_qty * 100
    if change_pct ≤ -th.critical_decline_pct then Trend.stopped
    else if change_pct ≤ -th.decline_pct then Trend.declining
    else if 20 ≤ change_pct then Trend.growing
    else Trend.stable

/-- `ProductLevelChurnEngine.detect_trend`: if a last order date is known and
`(reference - last).days / 7 >= stopped_weeks`, return `stopped`; otherwise
fall through to the rate-based rules.  A `none` last date (no date at all, or
an unparseable one, for which the code passes on the exception) skips the
inactivity check. -/
def detect_trend (baseline_qty current_qty : ℚ) (last_order_day : Option ℤ)
    (reference_day : ℤ) (th : Thresholds) : Trend :=
  match last_order_day with
  | some d =>
    if th.stopped_weeks ≤ ((reference_day - d : ℤ) : ℚ) / 7 then Trend.stopped
    else rate_trend baseline_qty current_qty th
  | none => rate_trend baseline_qty current_qty th

/-- The `drop_pct` computed in `ProductLevelChurnEngine.analyze`:
`(baseline - current)/baseline * 100` when `baseline_qty > 0`, else `0`. -/
def drop_percentage (baseline_qty current_qty : ℚ) : ℚ :=
  if 0 < baseline_qty then (baseline_qty - current_qty) / baseline_qty * 100 else 0

/-- The severity rule of `ProductLevelChurnEngine.analyze`:
critical if the trend is `stopped` or `drop_pct >= critical_decline_pct`;
warning if `drop_pct >= decline_pct`; else watch. -/
def severity_of (trend : Trend) (drop_pct : ℚ) (th : Thresholds) : Severity :=
  if trend = Trend.stopped ∨ th.critical_decline_pct ≤ drop_pct then Severity.critical
  else if th.decline_pct ≤ drop_pct then Severity.warning
  else Severity.watch

/-- Numeric rank of a severity tier: a larger rank is a more severe alert. -/
def severityRank : Severity → ℕ
| Severity.critical => 2
| Severity.warning => 1
| Severity.watch => 0

/-- One order of a per-customer, per-category list inside
`ProductLevelChurnEngine.analyze`, i.e. one of the dicts built by
`parse_orders`.  `day` is the order's date as an integer day ordinal, `none`
when the date is missing or unparseable.  ISO-8601 date strings compare
lexicographically exactly as their day ordinals, and a missing date sorts as
the empty string — i.e. below every date — so the ordinal (with `none` as
bottom) is a faithful model of the code's string sort key
`x.get('date', '')`. -/
structure PLOrder where
  day : Option ℤ
  quantity : ℚ
  value : ℚ
deriving DecidableEq, Repr

/-- `ProductLevelChurnEngine.calculate_baseline`: select the orders whose
date falls in the window
`[reference - lookback_weeks, reference - (lookback_weeks - baseline_weeks)]`
(weeks are 7 days); if none do, fall back to the first half of the list when
it has more than 4 entries, else the whole list; then divide the quantity and
value totals by `max 1 baseline_weeks`. -/
def calculate_baseline (orders : List PLOrder) (reference_day : ℤ)
    (lookback_weeks baseline_weeks : ℕ) : ℚ × ℚ :=
  let baseline_start : ℤ := reference_day - 7 * lookback_weeks
  let baseline_end : ℤ := reference_day - 7 * ((lookback_weeks : ℤ) - baseline_weeks)
  let in_window := orders.filter (fun o =>
    match o.day with
    | some d => decide (baseline_start ≤ d ∧ d ≤ baseline_end)
    | none => false)
  let baseline_orders :=
    if in_window.isEmpty then
      (if 4 < orders.length then orders.take (orders.length / 2) else orders)
    else in_window
  let weeks : ℚ := max 1 (baseline_weeks : ℚ)
  ((baseline_orders.map PLOrder.quantity).sum / weeks,
   (baseline_orders.map PLOrder.value).sum / weeks)

/-- Arithmetic mean of a rational list (`statistics.mean`); `0` on `[]`,
a case the guarded call sites never reach. -/
def qmean (l : List ℚ) : ℚ := l.sum / l.length

/-- The square of `statistics.stdev` (SAMPLE variance, denominator `n - 1`). -/
def sampleVariance (l : List ℚ) : ℚ :=
  (l.map (fun x => (x - qmean l) ^ 2)).sum / ((l.length : ℚ) - 1)

/-- The square of `statistics.pstdev` (POPULATION variance, denominator `n`). -/
def populationVariance (l : List ℚ) : ℚ :=
  (l.map (fun x => (x - qmean l) ^ 2)).sum / (l.length : ℚ)

/-- `ProductLevelChurnEngine.calculate_volatility`: the coefficient of
variation `statistics.stdev(quantities) / mean(quantities)` over the
positive quantities, and `0` when fewer than two positive quantities exist
or their mean is `0`. -/
noncomputable def calculate_volatility (orders : List PLOrder) : ℝ :=
  let quantities := (orders.filter (fun o => 0 < o.quantity)).map PLOrder.quantity
  if quantities.length < 2 then 0
  else if qmean quantities = 0 then 0
  else Real.sqrt (sampleVariance quantities) / (qmean quantities : ℝ)

/-- Modelled from the spec's words for claim C5 (the claim as stated):
volatility as the POPULATION standard deviation divided by the mean, with the
same guards as the code. -/
noncomputable def volatility_spec_population (orders : List PLOrder) : ℝ :=
  let quantities := (orders.map PLOrder.quantity).filter (fun q => 0 < q)
  if quantities.length < 2 ∨ qmean quantities = 0 then 0
  else Real.sqrt (populationVariance quantities) / (qmean quantities : ℝ)

/-- Modelled from the amended spec wording for claim C5: volatility as the
SAMPLE standard deviation divided by the mean, with the same guards. -/
noncomputable def volatility_spec_sample (orders : List PLOrder) : ℝ :=
  let quantities := (orders.map PLOrder.quantity).filter (fun q => 0 < q)
  if quantities.length < 2 ∨ qmean quantities = 0 then 0
  else Real.sqrt (sampleVariance quantities) / (qmean quantities : ℝ)

/-- Strict order on sort keys: a missing date (the code's `''` default)
is below every date. -/
def dayKeyLt : Option ℤ → Option ℤ → Bool
| none, none => false
| none, some _ => true
| some _, none => false
| some a, some b => decide (a < b)

/-- Insert one order into a list already sorted by descending date,
before the first entry with a date `≤` its own.  Together with
`sortByDateDesc` this is extensionally Python's stable
`list.sort(key=lambda x: x.get('date', ''), reverse=True)`: strictly
descending by date, ties kept in original order. -/
def insertByDateDesc (x : PLOrder) : List PLOrder → List PLOrder
| [] => [x]
| y :: ys => if dayKeyLt x.day y.day then y :: insertByDateDesc x ys else x :: y :: ys

/-- Stable sort by descending date (see `insertByDateDesc`). -/
def sortByDateDesc : List PLOrder → List PLOrder
| [] => []
| x :: xs => insertByDateDesc x (sortByDateDesc xs)

/-- Python's `l[-n:]`: the last `n` elements of a list. -/
def takeLast (n : ℕ) (l : List PLOrder) : List PLOrder := l.drop (l.length - n)

/-- The `order_history` stored on a `CustomerCategoryProfile` by
`ProductLevelChurnEngine.analyze`: the category's orders sorted most-recent
first, then sliced with `cat_orders[-20:]`. -/
def order_history (cat_orders : List PLOrder) : List PLOrder :=
  takeLast 20 (sortByDateDesc cat_orders)

/-! ## The raw-record parsing layer of `ProductLevelChurnEngine.parse_orders` -/

/-- A fragment of Python's value universe sufficient for raw order records:
`None`, numbers, strings and booleans. -/
inductive PyVal
| vnone
| vnum (q : ℚ)
| vstr (s : String)
| vbool (b : Bool)
deriving DecidableEq, Repr

/-- Python truthiness on `PyVal`. -/
def truthy : PyVal → Bool
| PyVal.vnone => false
| PyVal.vnum q => decide (q ≠ 0)
| PyVal.vstr s => decide (s ≠ "")
| PyVal.vbool b => b

/-- Python's `a or b` on values: `a` if truthy, else `b`. -/
def pyOr (a b : PyVal) : PyVal := if truthy a then a else b

/-- A raw order record: an association list, modelling a JSON object /
Python dict (first binding of a key wins, as in a dict). -/
def RawOrder : Type := List (String × PyVal)

/-- Python's `dict.get(key, default)`. -/
def pyGet (o : RawOrder) (key : String) (default : PyVal) : PyVal :=
  ((List.lookup key o).getD default)

/-- Decimal digit value of a character, `none` for a non-digit. -/
def digitVal (c : Char) : Option ℕ :=
  if c = '0' then some 0 else if c = '1' then some 1 else if c = '2' then some 2
  else if c = '3' then some 3 else if c = '4' then some 4 else if c = '5' then some 5
  else if c = '6' then some 6 else if c = '7' then some 7 else if c = '8' then some 8
  else if c = '9' then some 9 else none

/-- Read a non-empty all-digit character list as a natural number. -/
def parseNatChars : List Char → Option ℕ
| [] => none
| cs => cs.foldl (fun acc c =>
    match acc, digitVal c with
    | some n, some d => some (n * 10 + d)
    | _, _ => none) (some 0)

/-- Read a decimal integer literal (optional leading minus) from a string. -/
def parseIntLit (s : String) : Option ℤ :=
  match s.toList with
  | '-' :: rest => (parseNatChars rest).map (fun n => -(n : ℤ))
  | cs => (parseNatChars cs).map (fun n => (n : ℤ))

/-- Python's `float(value)`: numbers convert to themselves, booleans to 0/1,
`None` raises `TypeError`, and strings parse as numeric literals or raise
`ValueError`.  Numeric string literals are modelled as decimal integer
literals (`parseIntLit`); any other string fails, as `float()` raises. -/
def pyFloat : PyVal → Except Unit ℚ
| PyVal.vnum q => Except.ok q
| PyVal.vbool b => Except.ok (if b then 1 else 0)
| PyVal.vnone => Except.error ()
| PyVal.vstr s =>
  match parseIntLit s with
  | some n => Except.ok (n : ℚ)
  | none => Except.error ()

/-- ASCII lower-casing of one character (Python's `str.lower` restricted to
the ASCII labels the engine sees). -/
def asciiLowerChar (c : Char) : Char :=
  if 65 ≤ c.toNat ∧ c.toNat ≤ 90 then Char.ofNat (c.toNat + 32) else c

/-- ASCII lower-casing of a string. -/
def asciiLower (s : String) : String := String.mk (s.toList.map asciiLowerChar)

/-- `needle in hay` on Python strings: substring containment. -/
def strContains (hay needle : String) : Bool :=
  decide (List.IsInfix needle.toList hay.toList)

/-- The `category_synonyms` table of `ProductLevelChurnEngine.__init__`, in
declaration order. -/
def category_synonyms : List (String × List String) :=
  [("chicken", ["chicken", "poultry", "wings", "breast", "thighs"]),
   ("drinks", ["drinks", "beverages", "soft drinks", "cola", "water", "juice"]),
   ("cheese", ["cheese", "dairy", "cheddar", "mozzarella"]),
   ("dips", ["dips", "sauce", "condiments", "mayo", "ketchup"]),
   ("produce", ["vegetables", "produce", "salad", "lettuce", "tomato"])]

/-- `ProductLevelChurnEngine.normalize_category`: lower-case the label and
return the first canonical category one of whose synonyms occurs as a
substring; fall back to the lower-cased label. -/
def normalize_category (raw_category : String) : String :=
  let raw_lower := asciiLower raw_category
  match category_synonyms.find? (fun p => p.2.any (fun syn => strContains raw_lower syn)) with
  | some p => p.1
  | none => raw_lower

/-- The customer-id alias chain of `parse_orders`:
`order.get('customer_id') or order.get('customer') or order.get('account')`. -/
def customer_chain (o : RawOrder) : PyVal :=
  pyOr (pyOr (pyGet o ("customer_id") PyVal.vnone) (pyGet o ("customer") PyVal.vnone))
    (pyGet o ("account") PyVal.vnone)

/-- The product alias chain of `parse_orders`:
`order.get('product') or order.get('item') or order.get('category')`. -/
def product_chain (o : RawOrder) : PyVal :=
  pyOr (pyOr (pyGet o ("product") PyVal.vnone) (pyGet o ("item") PyVal.vnone))
    (pyGet o ("category") PyVal.vnone)

/-- The quantity chain of `parse_orders`:
`order.get('quantity', 0) or order.get('qty', 0) or 1`. -/
def qty_chain (o : RawOrder) : PyVal :=
  pyOr (pyOr (pyGet o ("quantity") (PyVal.vnum 0)) (pyGet o ("qty") (PyVal.vnum 0)))
    (PyVal.vnum 1)

/-- The value chain of `parse_orders`:
`order.get('value', 0) or order.get('amount', 0) or order.get('total', 0)`. -/
def value_chain (o : RawOrder) : PyVal :=
  pyOr (pyOr (pyGet o ("value") (PyVal.vnum 0)) (pyGet o ("amount") (PyVal.vnum 0)))
    (pyGet o ("total") (PyVal.vnum 0))

/-- The date chain of `parse_orders`:
`order.get('date') or order.get('order_date')`. -/
def date_chain (o : RawOrder) : PyVal :=
  pyOr (pyGet o ("date") PyVal.vnone) (pyGet o ("order_date") PyVal.vnone)

/-- Whether `parse_orders` keeps a record: both the customer chain and the
product chain are truthy (`if not customer_id or not product: continue`). -/
def kept (o : RawOrder) : Bool := truthy (customer_chain o) && truthy (product_chain o)

/-- Whether `float()` succeeds on a value. -/
def coercible (v : PyVal) : Bool :=
  match pyFloat v with
  | Except.ok _ => true
  | Except.error _ => false

/-- The record `parse_orders` appends for one customer/category entry. -/
structure ParsedOrder where
  customer : PyVal
  category : String
  date : PyVal
  quantity : ℚ
  value : ℚ
deriving DecidableEq, Repr

/-- Processing of a single record inside the `parse_orders` loop:
skip (`ok none`) when an identifier is missing; otherwise normalize the
category (raising on a non-string product, as `raw_category.lower()` would)
and coerce quantity and value with `float` (raising — uncaught — when the
chain value is not numerically coercible). -/
def parse_order (o : RawOrder) : Except Unit (Option ParsedOrder) :=
  if kept o then
    match product_chain o with
    | PyVal.vstr s =>
      match pyFloat (qty_chain o), pyFloat (value_chain o) with
      | Except.ok q, Except.ok v =>
        Except.ok (some
          { customer := customer_chain o
            category := normalize_category s
            date := date_chain o
            quantity := q
            value := v })
      | _, _ => Except.error ()
    | _ => Except.error ()
  else Except.ok none

/-- `ProductLevelChurnEngine.parse_orders`, projected to the sequence of
records it appends into the grouped structure, in input order (the grouping
key `(customer, category)` is carried on each record; the nested-dict shape
itself is irrelevant to the claims).  An uncaught exception in any record
aborts the whole run, as in the Python loop. -/
def parse_orders_kept : List RawOrder → Except Unit (List ParsedOrder)
| [] => Except.ok []
| o :: rest =>
  match parse_order o with
  | Except.error e => Except.error e
  | Except.ok p =>
    match parse_orders_kept rest with
    | Except.error e => Except.error e
    | Except.ok ps =>
      match p with
      | some x => Except.ok (x :: ps)
      | none => Except.ok ps

/-! ## `CompetitorIntelligenceEngine` (competitor_intelligence.py) -/

/-- An order as consumed by `calculate_price_sensitivity` /
`calculate_win_back_probability`: the numeric fields and the customer id
(the claims about this engine only exercise records where these fields are
present and numeric, so the `dict.get` defaults never fire). -/
structure CIOrder where
  customer_id : String
  quantity : ℚ
  value : ℚ
deriving DecidableEq, Repr

/-- The unit-price list of `calculate_price_sensitivity`:
`[o['value'] / o['quantity'] for o in orders if o['quantity'] > 0]`. -/
def prices (orders : List CIOrder) : List ℚ :=
  (orders.filter (fun o => 0 < o.quantity)).map (fun o => o.value / o.quantity)

/-- The quantity list of `calculate_price_sensitivity` (over ALL orders,
not only the positive-quantity ones). -/
def quantitiesOf (orders : List CIOrder) : List ℚ := orders.map CIOrder.quantity

/-- Period-over-period deltas: `[l[i] - l[i-1] for i in range(1, len(l))]`. -/
def deltas (l : List ℚ) : List ℚ := (l.tail.zip l).map (fun p => p.1 - p.2)

/-- Sum of squared deviations of a list from a given centre. -/
def sqDevSum (l : List ℚ) (m : ℚ) : ℚ := (l.map (fun xi => (xi - m) ^ 2)).sum

/-- `CompetitorIntelligenceEngine._correlation` (Pearson).  `n` is `len(x)`;
when `len(y) < n` the loop `y[i]` raises `IndexError` (modelled as the error
case, caught by the caller's bare `except`); the means both divide by `n`
while the deviation sums range over each full list, exactly as the code
does.  The code's denominator test `denom_x * denom_y == 0` on
`sqrt(sx) * sqrt(sy)` is equivalent to `sx * sy = 0`, since the summed
squares are non-negative. -/
noncomputable def correlation (x y : List ℚ) : Except Unit ℝ :=
  let n := x.length
  if n < 2 then Except.ok 0
  else if y.length < n then Except.error ()
  else
    let mean_x : ℚ := x.sum / n
    let mean_y : ℚ := y.sum / n
    let numerator : ℚ :=
      ((x.zip (y.take n)).map (fun p => (p.1 - mean_x) * (p.2 - mean_y))).sum
    let sx : ℚ := sqDevSum x mean_x
    let sy : ℚ := sqDevSum y mean_y
    if sx * sy = 0 then Except.ok 0
    else Except.ok ((numerator : ℝ) / (Real.sqrt (sx : ℝ) * Real.sqrt (sy : ℝ)))

/-- The `elasticity` computed by `calculate_price_sensitivity` (the code's
local variable): flat `1.0` with fewer than 2 prices or fewer than 2 distinct
prices; otherwise, when more than one period-over-period price delta exists,
`|correlation| * 2` for a negative correlation of the deltas and `0.5`
otherwise (`1.0` again if `_correlation` raised); and flat `1.0` when only
one delta exists. -/
noncomputable def price_elasticity (orders : List CIOrder) : ℝ :=
  let ps := prices orders
  let qs := quantitiesOf orders
  if ps.length < 2 ∨ ps.dedup.length < 2 then 1
  else
    let price_changes := deltas ps
    let qty_changes := deltas qs
    if 1 < price_changes.length then
      match correlation price_changes qty_changes with
      | Except.ok c => if c < 0 then |c| * 2 else 1 / 2
      | Except.error _ => 1
    else 1

/-- The `sensitivity_score` of `calculate_price_sensitivity`:
`min(100, max(0, elasticity * 50))`. -/
noncomputable def sensitivity_score (orders : List CIOrder) : ℝ :=
  min 100 (max 0 (price_elasticity orders * 50))

/-- `PriceSensitivityProfile` as built by `calculate_price_sensitivity`. -/
structure PriceSensitivityProfile where
  customer_id : String
  category : String
  sensitivity_score : ℝ
  price_elasticity : ℝ
  acceptable_premium : ℚ
  historical_price_response : String
  optimal_discount_range : ℚ × ℚ

/-- Python's `round(x, digits)` up to tie-breaking: Python rounds half to
even, this model rounds half away from zero; the two agree except at exact
half-ulp ties, which no claim exercises (the rounded profile fields are not
referenced by any theorem). -/
noncomputable def roundTo (digits : ℕ) (x : ℝ) : ℝ :=
  ((round (x * 10 ^ digits) : ℤ) : ℝ) / 10 ^ digits

open Classical in
/-- `CompetitorIntelligenceEngine.calculate_price_sensitivity`: fewer than 2
orders short-circuits to the neutral default profile; otherwise the
elasticity-derived score is banded into a response label, premium and
discount range. -/
noncomputable def calculate_price_sensitivity (orders : List CIOrder)
    (category : String) : PriceSensitivityProfile :=
  if orders.length < 2 then
    { customer_id := ((orders.head?.map CIOrder.customer_id).getD ("unknown"))
      category := category
      sensitivity_score := 50
      price_elasticity := 1
      acceptable_premium := 10
      historical_price_response := "neutral"
      optimal_discount_range := (5, 15) }
  else
    let score := sensitivity_score orders
    let elasticity := price_elasticity orders
    if 70 < score then
      { customer_id := ((orders.head?.map CIOrder.customer_id).getD ("unknown"))
        category := category
        sensitivity_score := roundTo 1 score
        price_elasticity := roundTo 2 elasticity
        acceptable_premium := 5
        historical_price_response := "highly_sensitive"
        optimal_discount_range := (10, 20) }
    else if 40 < score then
      { customer_id := ((orders.head?.map CIOrder.customer_id).getD ("unknown"))
        category := category
        sensitivity_score := roundTo 1 score
        price_elasticity := roundTo 2 elasticity
        acceptable_premium := 10
        historical_price_response := "moderately_sensitive"
        optimal_discount_range := (5, 15) }
    else
      { customer_id := ((orders.head?.map CIOrder.customer_id).getD ("unknown"))
        category := category
        sensitivity_score := roundTo 1 score
        price_elasticity := roundTo 2 elasticity
        acceptable_premium := 20
        historical_price_response := "low_sensitivity"
        optimal_discount_range := (0, 10) }

/-- `CompetitorIntelligenceEngine.calculate_win_back_probability`: starts at
0.70, subtracts the signal-strength and time-decay terms, adds the
sensitivity bonus, subtracts the competitor-advantage term, and clamps with
`max(0.1, min(0.9, ...))`. -/
def calculate_win_back_probability (signal_strength : ℚ) (weeks_since_loss : ℤ)
    (sens_score competitor_advantage : ℚ) : ℚ :=
  let base0 : ℚ := 7 / 10
  let base1 := base0 - signal_strength / 100 * (3 / 10)
  let time_decay := min (3 / 10 : ℚ) ((weeks_since_loss : ℚ) * (3 / 100))
  let base2 := base1 - time_decay
  let base3 :=
    if 60 < sens_score then base2 + 15 / 100
    else if 40 < sens_score then base2 + 8 / 100
    else base2
  let base4 := base3 - competitor_advantage / 100 * (2 / 10)
  max (1 / 10) (min (9 / 10) base4)

/-- Modelled from the spec's words for claim C7: the win-back probability as
one clamped closed-form expression. -/
def win_back_spec (signal_strength : ℚ) (weeks_since_loss : ℤ)
    (sens_score competitor_advantage : ℚ) : ℚ :=
  max (1 / 10) (min (9 / 10)
    (7 / 10 - signal_strength / 100 * (3 / 10)
      - min (3 / 10 : ℚ) ((weeks_since_loss : ℚ) * (3 / 100))
      + (if 60 < sens_score then (15 / 100 : ℚ)
         else if 40 < sens_score then 8 / 100 else 0)
      - competitor_advantage / 100 * (2 / 10)))

/-- Whether the product chain of a record resolved to a string (the only
type `normalize_category` accepts without raising). -/
def productIsStr (o : RawOrder) : Bool :=
  match product_chain o with
  | PyVal.vstr _ => true
  | _ => false

/-- A well-formed record: customer `C1`, product `chicken`, numeric fields. -/
def c3_good : RawOrder :=
  [(("customer_id"), PyVal.vstr ("C1")), (("product"), PyVal.vstr ("chicken")),
   (("quantity"), PyVal.vnum 3), (("value"), PyVal.vnum 10)]

/-- A record whose `quantity` field holds the non-numeric string `abc`. -/
def c3_bad : RawOrder :=
  [(("customer_id"), PyVal.vstr ("C1")), (("product"), PyVal.vstr ("chicken")),
   (("quantity"), PyVal.vstr ("abc")), (("value"), PyVal.vnum 10)]

/-- A record with no customer identifier under any alias: a data-quality
skip. -/
def c3_skip : RawOrder :=
  [(("product"), PyVal.vstr ("chicken")), (("quantity"), PyVal.vnum 2),
   (("value"), PyVal.vnum 4)]

/-- A kept record that explicitly carries the numeric quantity `0` (and no
`qty` alias). -/
def c9_zero_qty : RawOrder :=
  [(("customer_id"), PyVal.vstr ("C1")), (("product"), PyVal.vstr ("chicken")),
   (("quantity"), PyVal.vnum 0), (("value"), PyVal.vnum 5)]

/-- A kept record that explicitly carries the numeric quantity `7`. -/
def c9_explicit : RawOrder :=
  [(("customer_id"), PyVal.vstr ("C1")), (("product"), PyVal.vstr ("chicken")),
   (("quantity"), PyVal.vnum 7), (("value"), PyVal.vnum 5)]

/-- A kept record with neither a `quantity` nor a `qty` field. -/
def c9_no_qty : RawOrder :=
  [(("customer_id"), PyVal.vstr ("C1")), (("product"), PyVal.vstr ("chicken"))]

/-- 21 orders for one (customer, category) pair with 21 distinct dates,
day ordinals 1 (oldest) to 21 (most recent). -/
def c4_orders : List PLOrder :=
  (List.range 21).map (fun i => { day := some ((i : ℤ) + 1), quantity := 1, value := 1 })

/-- A category order list with two positive quantities 1 and 3. -/
def c5_orders : List PLOrder :=
  [{ day := none, quantity := 1, value := 1 },
   { day := none, quantity := 3, value := 1 }]

/-- Two orders with positive quantities and two distinct unit prices
(1 and 3). -/
def c6_two_orders : List CIOrder :=
  [{ customer_id := ("C1"), quantity := 1, value := 1 },
   { customer_id := ("C1"), quantity := 2, value := 6 }]

/-- Three orders with positive quantities and three distinct unit prices. -/
def c6_three_orders : List CIOrder :=
  [{ customer_id := ("C1"), quantity := 1, value := 1 },
   { customer_id := ("C1"), quantity := 1, value := 2 },
   { customer_id := ("C1"), quantity := 1, value := 3 }]

/-! ## Theorems settling the claims -/

/-- C1: the trend state is computed by the fixed rule sequence — the
inactivity rule (`weeksSinceLastOrder ≥ stopped_weeks`) dominates all
rate-based rules regardless of the baseline and current rates; below the
inactivity threshold (or with no last order date) the rate rules apply in
order: zero baseline gives `stable`/`growing` by whether the current rate is
zero, and otherwise `changePct = (current − baseline)/baseline · 100` is run
through the `stopped` / `declining` / `growing` / `stable` chain.  The
closing conjunct is the spec's example `weeksSinceLastOrder = 10`,
`baseline = current = 100` (day difference 70 = 10 weeks) yielding
`stopped`.  Determinism (identical inputs, identical state) is immediate
since `detect_trend` is a function of exactly
(baseline, current, weeksSinceLastOrder, thresholds). -/
theorem C1_trend_rule_sequence :
    ∀ (th : Thresholds) (b c : ℚ) (d reference_day : ℤ),
    (th.stopped_weeks ≤ ((reference_day - d : ℤ) : ℚ) / 7 →
      detect_trend b c (some d) reference_day th = Trend.stopped)
    ∧ (((reference_day - d : ℤ) : ℚ) / 7 < th.stopped_weeks →
      detect_trend b c (some d) reference_day th = rate_trend b c th)
    ∧ detect_trend b c none reference_day th = rate_trend b c th
    ∧ (b = 0 → c = 0 → rate_trend b c th = Trend.stable)
    ∧ (b = 0 → c ≠ 0 → rate_trend b c th = Trend.growing)
    ∧ (b ≠ 0 → (c - b) / b * 100 ≤ -th.critical_decline_pct →
      rate_trend b c th = Trend.stopped)
    ∧ (b ≠ 0 → -th.critical_decline_pct < (c - b) / b * 100 →
      (c - b) / b * 100 ≤ -th.decline_pct → rate_trend b c th = Trend.declining)
    ∧ (b ≠ 0 → -th.critical_decline_pct < (c - b) / b * 100 →
      -th.decline_pct < (c - b) / b * 100 → 20 ≤ (c - b) / b * 100 →
      rate_trend b c th = Trend.growing)
    ∧ (b ≠ 0 → -th.critical_decline_pct < (c - b) / b * 100 →
      -th.decline_pct < (c - b) / b * 100 → (c - b) / b * 100 < 20 →
      rate_trend b c th = Trend.stable)
    ∧ detect_trend 100 100 (some 0) 70 defaultThresholds = Trend.stopped := by
  intro th b c d r
  refine ⟨fun h => ?_, fun h => ?_, rfl, fun hb hc => ?_, fun hb hc => ?_,
    fun hb h1 => ?_, fun hb h1 h2 => ?_, fun hb h1 h2 h3 => ?_,
    fun hb h1 h2 h3 => ?_, ?_⟩
  · simp only [detect_trend]
    rw [if_pos h]
  · simp only [detect_trend]
    rw [if_neg (not_le.mpr h)]
  · simp [rate_trend, hb, hc]
  · simp [rate_trend, hb, hc]
  · simp [rate_trend, hb, h1]
  · simp [rate_trend, hb, not_le.mpr h1, h2]
  · simp [rate_trend, hb, not_le.mpr h1, not_le.mpr h2, h3]
  · simp [rate_trend, hb, not_le.mpr h1, not_le.mpr h2, not_le.mpr h3]
  · norm_num [detect_trend, defaultThresholds]

/-- Witness for C1 at concrete inputs: 10 weeks of silence dominates equal
rates, and a −70% change with no silence is `stopped` via the rate chain. -/
theorem C1_witness :
    detect_trend 5 5 (some 0) 70 defaultThresholds = Trend.stopped
    ∧ rate_trend 100 30 defaultThresholds = Trend.stopped := by
  constructor
  · exact (C1_trend_rule_sequence defaultThresholds 5 5 0 70).1
      (by norm_num [defaultThresholds])
  · exact (C1_trend_rule_sequence defaultThresholds 100 30 0 0).2.2.2.2.2.1
      (by norm_num) (by norm_num [defaultThresholds])

/-- C2: for fixed baseline > 0, `dropPct` is strictly decreasing in the
current rate; the severity rank never goes down as `dropPct` grows (for any
thresholds and any fixed trend); and at the default thresholds the exact
boundaries behave as stated: `changePct = −40` (baseline 100, current 60)
classifies as `declining` with `dropPct = 40` and severity `warning`, and
`changePct = −70` (baseline 100, current 30) classifies as `stopped` with
`dropPct = 70` and severity `critical`. -/
theorem C2_drop_monotone_and_boundaries :
    (∀ b c1 c2 : ℚ, 0 < b → c1 < c2 →
      drop_percentage b c2 < drop_percentage b c1)
    ∧ (∀ (th : Thresholds) (t : Trend) (d1 d2 : ℚ), d1 ≤ d2 →
      severityRank (severity_of t d1 th) ≤ severityRank (severity_of t d2 th))
    ∧ (detect_trend 100 60 none 0 defaultThresholds = Trend.declining
      ∧ drop_percentage 100 60 = 40
      ∧ severity_of Trend.declining (drop_percentage 100 60) defaultThresholds
        = Severity.warning)
    ∧ (detect_trend 100 30 none 0 defaultThresholds = Trend.stopped
      ∧ drop_percentage 100 30 = 70
      ∧ severity_of Trend.stopped (drop_percentage 100 30) defaultThresholds
        = Severity.critical) := by
  refine ⟨?_, ?_, ⟨?_, ?_, ?_⟩, ⟨?_, ?_, ?_⟩⟩
  · intro b c1 c2 hb h
    simp only [drop_percentage, if_pos hb]
    gcongr
  · intro th t d1 d2 h
    by_cases hA1 : t = Trend.stopped ∨ th.critical_decline_pct ≤ d1
    · have hA2 : t = Trend.stopped ∨ th.critical_decline_pct ≤ d2 := by
        rcases hA1 with h1 | h1
        · exact Or.inl h1
        · exact Or.inr (le_trans h1 h)
      simp only [severity_of, if_pos hA1, if_pos hA2]
      exact le_refl _
    · by_cases hB1 : th.decline_pct ≤ d1
      · have hB2 : th.decline_pct ≤ d2 := le_trans hB1 h
        by_cases hA2 : t = Trend.stopped ∨ th.critical_decline_pct ≤ d2
        · simp only [severity_of, if_neg hA1, if_pos hB1, if_pos hA2, severityRank]
          omega
        · simp only [severity_of, if_neg hA1, if_pos hB1, if_neg hA2, if_pos hB2]
          exact le_refl _
      · simp only [severity_of, if_neg hA1, if_neg hB1, severityRank]
        exact Nat.zero_le _
  · norm_num [detect_trend, rate_trend, defaultThresholds]
  · norm_num [drop_percentage]
  · norm_num [severity_of, drop_percentage, defaultThresholds]
    exact fun hh => Trend.noConfusion hh
  · norm_num [detect_trend, rate_trend, defaultThresholds]
  · norm_num [drop_percentage]
  · norm_num [severity_of, drop_percentage, defaultThresholds]

/-- Witness for C2 at concrete inputs: a larger current rate gives a
strictly smaller drop, and a larger drop gives a severity of at least the
same rank. -/
theorem C2_witness :
    drop_percentage 100 50 < drop_percentage 100 40
    ∧ severityRank (severity_of Trend.declining 40 defaultThresholds)
      ≤ severityRank (severity_of Trend.declining 80 defaultThresholds) :=
  ⟨C2_drop_monotone_and_boundaries.1 100 40 50 (by norm_num) (by norm_num),
   C2_drop_monotone_and_boundaries.2.1 defaultThresholds Trend.declining 40 80
     (by norm_num)⟩

/-- C7: the win-back probability equals the spec's clamped closed form, and
always lies in [0.1, 0.9], for every combination of signal strength, weeks
since loss, sensitivity score and competitor advantage. -/
theorem C7_win_back_formula_and_bounds :
    ∀ (signal_strength : ℚ) (weeks_since_loss : ℤ)
      (sens_score competitor_advantage : ℚ),
    calculate_win_back_probability signal_strength weeks_since_loss
        sens_score competitor_advantage
      = win_back_spec signal_strength weeks_since_loss
        sens_score competitor_advantage
    ∧ 1 / 10 ≤ calculate_win_back_probability signal_strength weeks_since_loss
        sens_score competitor_advantage
    ∧ calculate_win_back_probability signal_strength weeks_since_loss
        sens_score competitor_advantage ≤ 9 / 10 := by
  intro s w sc adv
  refine ⟨?_, ?_, ?_⟩
  · simp only [calculate_win_back_probability, win_back_spec]
    split_ifs <;> ring_nf
  · exact le_max_left _ _
  · exact max_le (by norm_num) (min_le_left _ _)

/-- C8: fewer than 2 orders (including the empty list) short-circuits
`calculate_price_sensitivity` to the neutral default profile: score 50,
elasticity 1.0, acceptable premium 10, discount band (5, 15).  The model is
a total function, so no exception can be raised on this path. -/
theorem C8_default_profile :
    ∀ (orders : List CIOrder) (category : String),
    orders.length < 2 →
    (calculate_price_sensitivity orders category).sensitivity_score = 50
    ∧ (calculate_price_sensitivity orders category).price_elasticity = 1
    ∧ (calculate_price_sensitivity orders category).acceptable_premium = 10
    ∧ (calculate_price_sensitivity orders category).optimal_discount_range
      = (5, 15) := by
  intro orders category h
  simp [calculate_price_sensitivity, if_pos h]

/-- Witness for C8: the empty order list yields the neutral default
profile. -/
theorem C8_witness :
    (calculate_price_sensitivity [] ("chicken")).sensitivity_score = 50
    ∧ (calculate_price_sensitivity [] ("chicken")).price_elasticity = 1
    ∧ (calculate_price_sensitivity [] ("chicken")).acceptable_premium = 10
    ∧ (calculate_price_sensitivity [] ("chicken")).optimal_discount_range
      = (5, 15) :=
  C8_default_profile [] ("chicken") (by norm_num)

/-- Helper: a record failing the identifier check is skipped, not an
error. -/
theorem parse_order_of_not_kept (o : RawOrder) (h : kept o = false) :
    parse_order o = Except.ok none := by
  simp [parse_order, h]

/-- Helper: a kept record with a string product and coercible quantity and
value chains parses to `ok (some _)`. -/
theorem parse_order_ok_of_safe (o : RawOrder) (hk : kept o = true)
    (hp : productIsStr o = true) (hq : coercible (qty_chain o) = true)
    (hv : coercible (value_chain o) = true) :
    ∃ p, parse_order o = Except.ok (some p) := by
  obtain ⟨s, hs⟩ : ∃ s, product_chain o = PyVal.vstr s := by
    revert hp
    unfold productIsStr
    cases product_chain o <;> simp
  obtain ⟨q, hq'⟩ : ∃ q, pyFloat (qty_chain o) = Except.ok q := by
    revert hq
    unfold coercible
    cases pyFloat (qty_chain o) <;> simp
  obtain ⟨v, hv'⟩ : ∃ v, pyFloat (value_chain o) = Except.ok v := by
    revert hv
    unfold coercible
    cases pyFloat (value_chain o) <;> simp
  refine ⟨{ customer := customer_chain o, category := normalize_category s,
            date := date_chain o, quantity := q, value := v }, ?_⟩
  simp only [parse_order, hk, hs, hq', hv']
  rfl

/-- C3, counterexample to the claim as stated: a record whose `quantity`
field holds the non-numeric string `abc` ABORTS the whole run — the
`float()` failure in `parse_orders` is not caught anywhere, so no result is
produced for the remaining records (here a perfectly good record precedes
the offending one). -/
theorem C3_counterexample :
    parse_orders_kept [c3_good, c3_bad] = Except.error () := rfl

/-- C3, amended: a record lacking a customer/product identifier is skipped
locally and never aborts; and whenever every kept record has a string
product and numerically coercible quantity/value chains (numbers, booleans,
numeric-literal strings, or absent fields falling back to defaults), the
whole batch parses to a result.  The original claim fails only for
non-coercible quantity/value field values (e.g. a non-numeric string),
whose exception propagates and aborts the run (`C3_counterexample`). -/
theorem C3_amended :
    (∀ batch : List RawOrder,
      (∀ o ∈ batch, kept o = true →
        productIsStr o = true ∧ coercible (qty_chain o) = true
          ∧ coercible (value_chain o) = true) →
      ∃ res, parse_orders_kept batch = Except.ok res)
    ∧ (∀ o : RawOrder, kept o = false → parse_order o = Except.ok none) := by
  constructor
  · intro batch h
    induction batch with
    | nil => exact ⟨[], rfl⟩
    | cons o rest ih =>
      obtain ⟨res, hres⟩ := ih (fun x hx => h x (List.mem_cons_of_mem o hx))
      by_cases hk : kept o = true
      · obtain ⟨hp, hq, hv⟩ := h o (List.mem_cons_self o rest) hk
        obtain ⟨p, hp'⟩ := parse_order_ok_of_safe o hk hp hq hv
        refine ⟨p :: res, ?_⟩
        simp only [parse_orders_kept, hp', hres]
      · refine ⟨res, ?_⟩
        have hk' : kept o = false := by
          cases hkk : kept o
          · rfl
          · exact absurd hkk hk
        simp only [parse_orders_kept, parse_order_of_not_kept o hk', hres]
  · exact parse_order_of_not_kept

/-- Witness for C3 at a concrete batch: a record with no customer
identifier followed by a well-formed record parses to a result (the skip is
local). -/
theorem C3_witness :
    ∃ res, parse_orders_kept [c3_skip, c3_good] = Except.ok res :=
  C3_amended.1 [c3_skip, c3_good] (by decide)

/-- C9, counterexample to the claim as stated: a kept record explicitly
carrying the numeric quantity `0` does NOT keep that quantity — `0` is
falsy, so the chain `order.get('quantity', 0) or order.get('qty', 0) or 1`
falls through to the fallback `1`. -/
theorem C9_counterexample :
    parse_orders_kept [c9_zero_qty]
      = Except.ok [{ customer := PyVal.vstr ("C1"), category := ("chicken"),
                     date := PyVal.vnone, quantity := 1, value := 5 }]
    ∧ (1 : ℚ) ≠ 0 :=
  ⟨rfl, by norm_num⟩

/-- C9, amended: an explicit non-zero numeric quantity is kept; the
fallback to `1` fires whenever BOTH the `quantity` and `qty` values are
falsy (absent, `None`, `0`, empty string or `False`) — in particular when
both aliases are absent, but also when a record explicitly carries the
numeric quantity `0`; and the value chain coerces to `0` when `value`,
`amount` and `total` are all absent. -/
theorem C9_amended :
    ∀ o : RawOrder,
    (∀ q : ℚ, List.lookup ("quantity") o = some (PyVal.vnum q) → q ≠ 0 →
      pyFloat (qty_chain o) = Except.ok q)
    ∧ (truthy (pyGet o ("quantity") (PyVal.vnum 0)) = false →
      truthy (pyGet o ("qty") (PyVal.vnum 0)) = false →
      pyFloat (qty_chain o) = Except.ok 1)
    ∧ (List.lookup ("quantity") o = none → List.lookup ("qty") o = none →
      pyFloat (qty_chain o) = Except.ok 1)
    ∧ (List.lookup ("value") o = none → List.lookup ("amount") o = none →
      List.lookup ("total") o = none →
      pyFloat (value_chain o) = Except.ok 0) := by
  intro o
  refine ⟨fun q hq hq0 => ?_, fun h1 h2 => ?_, fun h1 h2 => ?_, fun h1 h2 h3 => ?_⟩
  · simp [qty_chain, pyGet, hq, pyOr, truthy, hq0, pyFloat]
  · simp [qty_chain, pyOr, h1, h2, pyFloat]
  · have g1 : truthy (pyGet o ("quantity") (PyVal.vnum 0)) = false := by
      simp [pyGet, h1, truthy]
    have g2 : truthy (pyGet o ("qty") (PyVal.vnum 0)) = false := by
      simp [pyGet, h2, truthy]
    simp [qty_chain, pyOr, g1, g2, pyFloat]
  · simp [value_chain, pyGet, h1, h2, h3, pyOr, truthy, pyFloat]

/-- Witness for C9 at concrete records: an explicit quantity `7` is kept,
and a record with both aliases absent falls back to `1`. -/
theorem C9_witness :
    pyFloat (qty_chain c9_explicit) = Except.ok 7
    ∧ pyFloat (qty_chain c9_no_qty) = Except.ok 1 :=
  ⟨(C9_amended c9_explicit).1 7 (by decide) (by norm_num),
   (C9_amended c9_no_qty).2.2.1 (by decide) (by decide)⟩

/-- C4, evaluation at the failing input: on 21 orders with distinct dates
(day ordinals 1..21), the stored `order_history = cat_orders[-20:]` after
the most-recent-first sort holds the 20 OLDEST orders (days 20 down to 1) —
the most recent order (day 21) is the one dropped, contradicting the
claim/spec (and the code's own `# Last 20 orders` comment) that the 20 most
recent orders are retained. -/
theorem C4_code_bug_eval :
    (order_history c4_orders).map PLOrder.day
      = (List.range 20).map (fun i => some ((20 - i : ℕ) : ℤ))
    ∧ ¬ (some (21 : ℤ) ∈ (order_history c4_orders).map PLOrder.day)
    ∧ (order_history c4_orders).length = 20 := by
  refine ⟨by decide, by decide, by decide⟩

/-- Helper: with all order quantities non-negative, the baseline weekly
quantity rate is non-negative (every branch of the baseline-order selection
draws from the input list, and the divisor `max 1 baseline_weeks` is
positive). -/
theorem calculate_baseline_qty_nonneg (orders : List PLOrder)
    (reference_day : ℤ) (lookback_weeks baseline_weeks : ℕ)
    (h : ∀ o ∈ orders, 0 ≤ o.quantity) :
    0 ≤ (calculate_baseline orders reference_day lookback_weeks baseline_weeks).1 := by
  simp only [calculate_baseline]
  apply div_nonneg
  · apply List.sum_nonneg
    intro x hx
    obtain ⟨o, ho, rfl⟩ := List.mem_map.mp hx
    apply h o
    split_ifs at ho with h1 h2
    · exact List.take_subset _ _ ho
    · exact ho
    · exact List.mem_of_mem_filter ho
  · exact le_trans zero_le_one (le_max_left 1 _)

/-- C10: whenever all order quantities in the batch are non-negative, an
emitted alert (trend `stopped` or `declining`, computed from the baseline
rate the engine derives from those orders) never gets severity `watch`:
`stopped` maps straight to `critical`, and `declining` forces a positive
baseline with `changePct ≤ −decline_pct`, hence `dropPct ≥ decline_pct` and
at least `warning`. -/
theorem C10_no_watch_alerts :
    ∀ (orders : List PLOrder) (reference_day : ℤ)
      (lookback_weeks baseline_weeks : ℕ) (current_qty : ℚ)
      (last_order_day : Option ℤ) (th : Thresholds),
    (∀ o ∈ orders, 0 ≤ o.quantity) →
    (detect_trend (calculate_baseline orders reference_day lookback_weeks
          baseline_weeks).1 current_qty last_order_day reference_day th
        = Trend.stopped
      ∨ detect_trend (calculate_baseline orders reference_day lookback_weeks
          baseline_weeks).1 current_qty last_order_day reference_day th
        = Trend.declining) →
    severity_of
      (detect_trend (calculate_baseline orders reference_day lookback_weeks
        baseline_weeks).1 current_qty last_order_day reference_day th)
      (drop_percentage (calculate_baseline orders reference_day lookback_weeks
        baseline_weeks).1 current_qty) th
    ≠ Severity.watch := by
  intro orders r lw bw c last th hq hcase
  set b := (calculate_baseline orders r lw bw).1 with hbdef
  have hb0 : 0 ≤ b := calculate_baseline_qty_nonneg orders r lw bw hq
  rcases hcase with h | h
  · rw [h]
    simp [severity_of]
  · rw [h]
    have hrt : rate_trend b c th = Trend.declining := by
      rcases last with _ | d
      · exact h
      · simp only [detect_trend] at h
        by_cases hw : th.stopped_weeks ≤ ((r - d : ℤ) : ℚ) / 7
        · rw [if_pos hw] at h
          exact absurd h (by simp)
        · rwa [if_neg hw] at h
    have hb' : b ≠ 0 ∧ (c - b) / b * 100 ≤ -th.decline_pct := by
      by_cases h0 : b = 0
      · rw [rate_trend, if_pos h0] at hrt
        by_cases hc0 : c = 0
        · rw [if_pos hc0] at hrt
          exact absurd hrt (by simp)
        · rw [if_neg hc0] at hrt
          exact absurd hrt (by simp)
      · refine ⟨h0, ?_⟩
        rw [rate_trend, if_neg h0] at hrt
        by_cases h1 : (c - b) / b * 100 ≤ -th.critical_decline_pct
        · rw [if_pos h1] at hrt
          exact absurd hrt (by simp)
        · rw [if_neg h1] at hrt
          by_cases h2 : (c - b) / b * 100 ≤ -th.decline_pct
          · exact h2
          · rw [if_neg h2] at hrt
            by_cases h3 : 20 ≤ (c - b) / b * 100
            · rw [if_pos h3] at hrt
              exact absurd hrt (by simp)
            · rw [if_neg h3] at hrt
              exact absurd hrt (by simp)
    have hbpos : 0 < b := lt_of_le_of_ne hb0 (Ne.symm hb'.1)
    have hdrop : th.decline_pct ≤ drop_percentage b c := by
      rw [drop_percentage, if_pos hbpos]
      have hch := hb'.2
      have hbne : b ≠ 0 := hb'.1
      have hexp : (b - c) / b * 100 = -((c - b) / b * 100) := by
        field_simp
        ring
      rw [hexp]
      linarith
    simp only [severity_of]
    by_cases hA : Trend.declining = Trend.stopped ∨ th.critical_decline_pct ≤ drop_percentage b c
    · rw [if_pos hA]
      simp
    · rw [if_neg hA, if_pos hdrop]
      simp

/-- Witness for C10 at a concrete input: one order of quantity 5 whose date
is 10 weeks before the reference date, current rate 0; the trend is
`stopped` and the severity is not `watch`. -/
theorem C10_witness :
    severity_of
      (detect_trend (calculate_baseline
          [{ day := some 0, quantity := 5, value := 5 }] 70 12 8).1 0
        (some 0) 70 defaultThresholds)
      (drop_percentage (calculate_baseline
          [{ day := some 0, quantity := 5, value := 5 }] 70 12 8).1 0)
      defaultThresholds
    ≠ Severity.watch := by
  apply C10_no_watch_alerts [{ day := some 0, quantity := 5, value := 5 }]
    70 12 8 0 (some 0) defaultThresholds
  · intro o ho
    simp only [List.mem_singleton] at ho
    rw [ho]
    norm_num
  · left
    norm_num [detect_trend, defaultThresholds]

/-- Helper: `statistics` helpers commute with extracting the quantities:
filtering orders on positive quantity then taking quantities equals taking
quantities then filtering on positivity. -/
theorem quantities_filter_comm (orders : List PLOrder) :
    (orders.filter (fun o => 0 < o.quantity)).map PLOrder.quantity
      = (orders.map PLOrder.quantity).filter (fun q => 0 < q) := by
  rw [List.filter_map]
  rfl

/-- C5, counterexample to the claim as stated: on quantities `[1, 3]` the
code's volatility is `stdev/mean = √2 / 2` (SAMPLE standard deviation,
denominator `n − 1`), while the claim's population-standard-deviation
formula gives `1/2`. -/
theorem C5_counterexample :
    calculate_volatility c5_orders ≠ volatility_spec_population c5_orders := by
  have h1 : calculate_volatility c5_orders = Real.sqrt 2 / 2 := by
    have hq : (c5_orders.filter (fun o => 0 < o.quantity)).map PLOrder.quantity
        = [1, 3] := by
      norm_num [c5_orders, List.filter]
    simp only [calculate_volatility, hq]
    rw [if_neg (by norm_num), if_neg (by norm_num [qmean])]
    have hv : sampleVariance [1, 3] = 2 := by norm_num [sampleVariance, qmean]
    have hm : qmean [1, 3] = 2 := by norm_num [qmean]
    rw [hv, hm]
    norm_num
  have h2 : volatility_spec_population c5_orders = 1 / 2 := by
    have hq : ((c5_orders.map PLOrder.quantity).filter (fun q => 0 < q))
        = [1, 3] := by
      norm_num [c5_orders, List.filter]
    simp only [volatility_spec_population, hq]
    rw [if_neg (by norm_num [qmean])]
    have hv : populationVariance [1, 3] = 1 := by
      norm_num [populationVariance, qmean]
    have hm : qmean [1, 3] = 2 := by norm_num [qmean]
    rw [hv, hm]
    norm_num
  rw [h1, h2]
  intro hcontra
  have hs : Real.sqrt 2 = 1 := by linarith
  have h4 : Real.sqrt 2 ^ 2 = 2 := Real.sq_sqrt (by norm_num)
  rw [hs] at h4
  norm_num at h4

/-- C5, amended: the code's volatility is the coefficient of variation with
the SAMPLE (Bessel-corrected) standard deviation — not the population one —
over the positive quantities, and it is `0` whenever fewer than two
positive-quantity orders exist (the `mean = 0` guard is shared by both
formulations; it is unreachable since the filtered quantities are all
positive). -/
theorem C5_amended :
    (∀ orders : List PLOrder,
      calculate_volatility orders = volatility_spec_sample orders)
    ∧ (∀ orders : List PLOrder,
      (orders.filter (fun o => 0 < o.quantity)).length < 2 →
      calculate_volatility orders = 0) := by
  constructor
  · intro orders
    simp only [calculate_volatility, volatility_spec_sample,
      quantities_filter_comm]
    split_ifs with h1 h2 h3 <;> first | rfl | tauto
  · intro orders h
    simp only [calculate_volatility]
    rw [if_pos (by rwa [List.length_map])]

/-- Witness for C5: a single-order list (fewer than two positive
quantities) has volatility `0`, and the two definitions agree on the
concrete two-order list. -/
theorem C5_witness :
    calculate_volatility [{ day := none, quantity := 4, value := 1 }] = 0
    ∧ calculate_volatility c5_orders = volatility_spec_sample c5_orders :=
  ⟨C5_amended.2 [{ day := none, quantity := 4, value := 1 }] (by norm_num),
   C5_amended.1 c5_orders⟩

/-- Helper: a period-over-period delta list is one shorter than its
source. -/
theorem deltas_length (l : List ℚ) : (deltas l).length = l.length - 1 := by
  simp [deltas]

/-- C6, counterexample to the claim as stated: `c6_two_orders` has two
positive-quantity orders with two distinct unit prices (1 and 3), yet the
code returns the flat elasticity `1.0` — not the correlation-based value —
because a single period-over-period delta fails the `len(price_changes) > 1`
test; the claim's rule (Pearson correlation of the delta lists, here `ok 0`
by the `n < 2` guard, hence elasticity `0.5`) disagrees. -/
theorem C6_counterexample :
    correlation (deltas (prices c6_two_orders)) (deltas (quantitiesOf c6_two_orders))
      = Except.ok 0
    ∧ price_elasticity c6_two_orders = 1
    ∧ price_elasticity c6_two_orders
      ≠ (if (0 : ℝ) < 0 then |(0 : ℝ)| * 2 else 1 / 2) := by
  have h1 : deltas (prices c6_two_orders) = [2] := by
    norm_num [deltas, prices, c6_two_orders]
  have h2 : deltas (quantitiesOf c6_two_orders) = [1] := by
    norm_num [deltas, quantitiesOf, c6_two_orders]
  have h3 : price_elasticity c6_two_orders = 1 := by
    norm_num [price_elasticity, prices, quantitiesOf, deltas, c6_two_orders]
  refine ⟨?_, h3, ?_⟩
  · rw [h1, h2]
    norm_num [correlation]
  · rw [h3]
    norm_num

/-- C6, amended: with at least THREE positive-quantity orders (so that more
than one price delta exists) and at least two distinct unit prices, the
elasticity is `|correlation| · 2` for a negative Pearson correlation of the
period-over-period price and quantity deltas and `0.5` otherwise, and the
sensitivity score is `clamp(elasticity · 50, 0, 100)`; with exactly two
orders the code short-circuits to the flat elasticity `1.0`
(`C6_counterexample`).  The second conjunct is the claim's parenthetical: a
correlation whose denominator vanishes is `0`. -/
theorem C6_amended :
    (∀ orders : List CIOrder,
      (∀ o ∈ orders, 0 < o.quantity) → 3 ≤ orders.length →
      2 ≤ (prices orders).dedup.length →
      ∃ c : ℝ,
        correlation (deltas (prices orders)) (deltas (quantitiesOf orders))
          = Except.ok c
        ∧ price_elasticity orders = (if c < 0 then |c| * 2 else 1 / 2)
        ∧ sensitivity_score orders
          = min 100 (max 0 (price_elasticity orders * 50)))
    ∧ (∀ x y : List ℚ, ¬ x.length < 2 → ¬ y.length < x.length →
      sqDevSum x (x.sum / x.length) * sqDevSum y (y.sum / x.length) = 0 →
      correlation x y = Except.ok 0) := by
  constructor
  · intro orders hpos hlen hdedup
    have hfil : orders.filter (fun o => 0 < o.quantity) = orders :=
      List.filter_eq_self.mpr (fun o ho => by simpa using hpos o ho)
    have hplen : (prices orders).length = orders.length := by
      simp [prices, hfil]
    have hqlen : (quantitiesOf orders).length = orders.length := by
      simp [quantitiesOf]
    have hpc : 1 < (deltas (prices orders)).length := by
      rw [deltas_length, hplen]
      omega
    have hn2 : ¬ (deltas (prices orders)).length < 2 := by omega
    have hyx : ¬ (deltas (quantitiesOf orders)).length
        < (deltas (prices orders)).length := by
      rw [deltas_length, deltas_length, hplen, hqlen]
      omega
    obtain ⟨c, hc⟩ : ∃ c,
        correlation (deltas (prices orders)) (deltas (quantitiesOf orders))
          = Except.ok c := by
      simp only [correlation]
      rw [if_neg hn2, if_neg hyx]
      split_ifs
      · exact ⟨0, rfl⟩
      · exact ⟨_, rfl⟩
    have hcond : ¬ ((prices orders).length < 2
        ∨ (prices orders).dedup.length < 2) := by
      push_neg
      constructor
      · rw [hplen]
        omega
      · omega
    refine ⟨c, hc, ?_, rfl⟩
    simp only [price_elasticity]
    rw [if_neg hcond, if_pos hpc, hc]
  · intro x y h1 h2 h3
    simp only [correlation]
    rw [if_neg h1, if_neg h2, if_pos h3]

/-- Witness for C6 at concrete inputs: three positive-quantity orders with
distinct unit prices go through the correlation rule, and a denominator-zero
correlation is `0`. -/
theorem C6_witness :
    (∃ c : ℝ,
      correlation (deltas (prices c6_three_orders))
          (deltas (quantitiesOf c6_three_orders)) = Except.ok c
      ∧ price_elasticity c6_three_orders = (if c < 0 then |c| * 2 else 1 / 2)
      ∧ sensitivity_score c6_three_orders
        = min 100 (max 0 (price_elasticity c6_three_orders * 50)))
    ∧ correlation [5, 5] [1, 2] = Except.ok 0 := by
  constructor
  · exact C6_amended.1 c6_three_orders (by decide) (by norm_num [c6_three_orders])
      (by rw [show prices c6_three_orders = [1, 2, 3] from
            by norm_num [prices, c6_three_orders]]
          decide)
  · exact C6_amended.2 [5, 5] [1, 2] (by norm_num) (by norm_num)
      (by norm_num [sqDevSum])

end Churn
